import Mathlib

/-!
Verification of the budget-utils expense pipeline: shallow embedding of
`budget/parsers.py`, `budget/sheets.py` and `budget/analysis.py`.

Conventions of the embedding:
* Python `float` values are modelled as exact rationals (ℚ); the float literals
  `inf`/`nan` and underscore digit separators accepted by Python's `float()` are
  outside the rational model and are not relied on by any theorem.
* Python `datetime` objects are modelled by their six calendar fields with the
  lexicographic comparison Python uses.
* Fallible operations return `Option`/`Except`; a raised Python exception is an
  `Except.error` value naming the exception class.
* `None` cells (pandas `NaN`) in a dataframe are `Option.none`.
-/

/-- Python `datetime` restricted to the fields this program uses.  Python compares
datetimes lexicographically field by field. -/
structure PyDateTime where
  year : ℕ
  month : ℕ
  day : ℕ
  hour : ℕ
  minute : ℕ
  second : ℕ
deriving DecidableEq, Repr

/-- The comparison key of a datetime: the lexicographic tuple of its fields. -/
def PyDateTime.key (d : PyDateTime) : ℕ ×ₗ (ℕ ×ₗ (ℕ ×ₗ (ℕ ×ₗ (ℕ ×ₗ ℕ)))) :=
  toLex (d.year, toLex (d.month, toLex (d.day, toLex (d.hour, toLex (d.minute, d.second)))))

/-- `a <= b` on Python datetimes. -/
def PyDateTime.le (a b : PyDateTime) : Prop := a.key ≤ b.key

/-- `a < b` on Python datetimes. -/
def PyDateTime.lt (a b : PyDateTime) : Prop := a.key < b.key

instance (a b : PyDateTime) : Decidable (PyDateTime.le a b) := by
  unfold PyDateTime.le; infer_instance

instance (a b : PyDateTime) : Decidable (PyDateTime.lt a b) := by
  unfold PyDateTime.lt; infer_instance

/-- The whitespace characters removed by `re.sub(r"\s+", "", ...)`; the common
ASCII whitespace class (space, tab, newline, carriage return, vertical tab,
form feed).  Exotic Unicode spaces are not modelled; no input below uses them. -/
def pyIsSpace (c : Char) : Bool :=
  c.toNat = 32 || c.toNat = 9 || c.toNat = 10 || c.toNat = 13 || c.toNat = 11 || c.toNat = 12

/-- ASCII lowercasing of one character, as Python's case-insensitive month-name
matching effectively applies to the ASCII month names. -/
def lowerChar (c : Char) : Char :=
  if 65 ≤ c.toNat ∧ c.toNat ≤ 90 then Char.ofNat (c.toNat + 32) else c

/-- Is the first character list a prefix of the second? -/
def charsPre : List Char → List Char → Bool
  | [], _ => true
  | _ :: _, [] => false
  | a :: as, b :: bs => a == b && charsPre as bs

/-- Numeric value of a digit string (most significant digit first). -/
def digitsToNat (cs : List Char) : ℕ :=
  cs.foldl (fun a c => a * 10 + (c.toNat - 48)) 0

/-- The abbreviated month names matched by `strptime`'s `%b`, lowercased, with
their month numbers. -/
def MONTH_ABBRS : List (String × ℕ) :=
  [("jan", 1), ("feb", 2), ("mar", 3), ("apr", 4), ("may", 5), ("jun", 6),
   ("jul", 7), ("aug", 8), ("sep", 9), ("oct", 10), ("nov", 11), ("dec", 12)]

/-- The full month names matched by `strptime`'s `%B`, lowercased. -/
def MONTH_FULL : List (String × ℕ) :=
  [("january", 1), ("february", 2), ("march", 3), ("april", 4), ("may", 5),
   ("june", 6), ("july", 7), ("august", 8), ("september", 9), ("october", 10),
   ("november", 11), ("december", 12)]

/-- `strptime(s, "%b%Y")` / `strptime(s, "%B%Y")` on an already lowercased,
whitespace-free character list: a month name from the table followed by exactly
four digits (CPython's `%Y` pattern is four digits) and nothing else.  No month
name in either table is a prefix of another, so taking the first table entry
that is a prefix agrees with the regex alternation CPython builds.  `strptime`
leaves the day at 1 and the time at midnight. -/
def tryMonthYear (tbl : List (String × ℕ)) (l : List Char) : Option PyDateTime :=
  match tbl.find? (fun p => charsPre p.1.data l) with
  | some p =>
    let rest := l.drop p.1.data.length
    if rest.length = 4 && rest.all Char.isDigit then
      some ⟨digitsToNat rest, p.2, 1, 0, 0, 0⟩
    else none
  | none => none

/-- `strptime(s, "%b")` / `strptime(s, "%B")` followed by
`dt.replace(year=datetime.now().year)`: the whole string is a month name; the
year is the current year at parse time, passed in as `nowYear`. -/
def tryMonthOnly (tbl : List (String × ℕ)) (l : List Char) (nowYear : ℕ) : Option PyDateTime :=
  match tbl.find? (fun p => p.1.data == l) with
  | some p => some ⟨nowYear, p.2, 1, 0, 0, 0⟩
  | none => none

/-- `budget.parsers.parse_month_datetime`: strip all whitespace, then try the
formats `%b%Y`, `%B%Y`, `%b`, `%B` in that order; month-name matching is
case-insensitive (modelled by lowercasing ASCII letters first, which the digit
and length checks do not observe).  `nowYear` stands for `datetime.now().year`,
used only by the month-only formats. -/
def parse_month_datetime (month_str : String) (nowYear : ℕ) : Option PyDateTime :=
  let formatted := (month_str.data.filter (fun c => !pyIsSpace c)).map lowerChar
  match tryMonthYear MONTH_ABBRS formatted with
  | some dt => some dt
  | none =>
    match tryMonthYear MONTH_FULL formatted with
    | some dt => some dt
    | none =>
      match tryMonthOnly MONTH_ABBRS formatted nowYear with
      | some dt => some dt
      | none => tryMonthOnly MONTH_FULL formatted nowYear

/-- Exponent digits of a float literal: `10 ^ digits`. -/
def parseExpDigits (cs : List Char) : Option ℚ :=
  if cs.isEmpty || !cs.all Char.isDigit then none else some ((10 : ℚ) ^ digitsToNat cs)

/-- Signed exponent part of a float literal (the part after `e`/`E`). -/
def parseExp (cs : List Char) : Option ℚ :=
  match cs with
  | '+' :: r => parseExpDigits r
  | '-' :: r => (parseExpDigits r).map (fun e => 1 / e)
  | r => parseExpDigits r

/-- An unsigned Python float literal: `digits[.digits][exp]` or `.digits[exp]`,
with at least one digit. -/
def parseDecimal (cs : List Char) : Option ℚ :=
  let ip := cs.takeWhile Char.isDigit
  let r1 := cs.dropWhile Char.isDigit
  let ival : ℚ := (digitsToNat ip : ℚ)
  match r1 with
  | [] => if ip.isEmpty then none else some ival
  | '.' :: r2 =>
    let fp := r2.takeWhile Char.isDigit
    let r3 := r2.dropWhile Char.isDigit
    let v : ℚ := ival + (digitsToNat fp : ℚ) / 10 ^ fp.length
    if ip.isEmpty && fp.isEmpty then none
    else
      match r3 with
      | [] => some v
      | c :: r4 =>
        if c == 'e' || c == 'E' then (parseExp r4).map (fun e => v * e) else none
  | c :: r2 =>
    if (c == 'e' || c == 'E') && !ip.isEmpty then
      (parseExp r2).map (fun e => ival * e)
    else none

/-- Python's `float(str)`: optional surrounding whitespace, optional sign, then
a decimal literal.  (`inf`/`nan` and underscore separators are outside the
rational model.) -/
def pyFloatOfChars (cs : List Char) : Option ℚ :=
  let t := ((cs.dropWhile pyIsSpace).reverse.dropWhile pyIsSpace).reverse
  match t with
  | '+' :: r => parseDecimal r
  | '-' :: r => (parseDecimal r).map Neg.neg
  | r => parseDecimal r

/-- `str.strip('$')`: remove every leading and trailing dollar sign. -/
def stripDollar (cs : List Char) : List Char :=
  ((cs.dropWhile (· == '$')).reverse.dropWhile (· == '$')).reverse

/-- `budget.parsers.parse_money`: `float(money.strip('$').replace(',', ''))`,
with the `ValueError` of an unparseable string returned as `none`. -/
def parse_money (money : String) : Option ℚ :=
  pyFloatOfChars ((stripDollar money.data).filter (fun c => !(c == ',')))

/-- C4: period-label parsing is case- and whitespace-insensitive over the
supported formats: "jAn2020", "JAN 2020" and "January2020" all parse to
January 2020 with the day fixed to 1 (and time at midnight), for every value of
the current year (which only month-only labels consult). -/
theorem parse_month_datetime_case_whitespace_insensitive (nowYear : ℕ) :
    parse_month_datetime "jAn2020" nowYear = some ⟨2020, 1, 1, 0, 0, 0⟩
    ∧ parse_month_datetime "JAN 2020" nowYear = some ⟨2020, 1, 1, 0, 0, 0⟩
    ∧ parse_month_datetime "January2020" nowYear = some ⟨2020, 1, 1, 0, 0, 0⟩ :=
  ⟨rfl, rfl, rfl⟩

/-- C5: money parsing returns 1234.56 on "$1,234.56" and 5.0 on "5", and yields
`none` (not an exception) on the empty string and on "hello". -/
theorem parse_money_examples :
    parse_money "$1,234.56" = some (1234.56 : ℚ)
    ∧ parse_money "5" = some (5 : ℚ)
    ∧ parse_money "" = none
    ∧ parse_money "hello" = none := by
  refine ⟨?_, ?_, rfl, rfl⟩ <;> with_unfolding_all rfl

/-- `budget.sheets.MonthRange`: a month range from a start month (inclusive) to
an end month (exclusive); the constructor stores `datetime(y, m, 1)` for both
bounds. -/
structure MonthRange where
  start : PyDateTime
  end_ : PyDateTime
deriving DecidableEq, Repr

/-- The `MonthRange((y1, m1), (y2, m2))` constructor. -/
def mkMonthRange (s e : ℕ × ℕ) : MonthRange :=
  ⟨⟨s.1, s.2, 1, 0, 0, 0⟩, ⟨e.1, e.2, 1, 0, 0, 0⟩⟩

/-- `MonthRange.contains`: `self.start <= dt < self.end`. -/
def MonthRange.contains (r : MonthRange) (dt : PyDateTime) : Prop :=
  r.start.le dt ∧ dt.lt r.end_

instance (r : MonthRange) (dt : PyDateTime) : Decidable (r.contains dt) := by
  unfold MonthRange.contains; exact instDecidableAnd

/-- `budget.sheets._GROCERY_LOC_MAP`: the insertion-ordered mapping from month
ranges to the cell location holding the grocery values in that range. -/
def _GROCERY_LOC_MAP : List (MonthRange × String) :=
  [(mkMonthRange (2020, 3) (2020, 8), "B7:D7"),
   (mkMonthRange (2020, 9) (2021, 2), "F7"),
   (mkMonthRange (2021, 2) (2021, 3), "M7"),
   (mkMonthRange (2021, 3) (2021, 4), "F7"),
   (mkMonthRange (2021, 4) (2021, 5), "M2"),
   (mkMonthRange (2021, 8) (2022, 5), "L2"),
   (mkMonthRange (2022, 5) (2022, 9), "D7"),
   (mkMonthRange (2022, 10) (2035, 1), "E7")]

/-- `budget.sheets._SPLIT_RENT`: sheet ids whose recorded rent is a per-person
share. -/
def _SPLIT_RENT : List ℕ := [2064860783, 944604678, 74019485]

/-- `budget.sheets._EXCLUDED_SHEETS`. -/
def _EXCLUDED_SHEETS : List String := ["Aug2020", "Sept2022"]

/-- `budget.sheets.get_grocery_a1`: iterate the grocery map in insertion order
and return the location of the first range containing `dt`, else `None`. -/
def get_grocery_a1 (dt : PyDateTime) : Option String :=
  (_GROCERY_LOC_MAP.find? (fun p => decide (p.1.contains dt))).map Prod.snd

/-- The ranges of the grocery map are listed chronologically and do not
overlap: each range's end is at or before every later range's start. -/
theorem grocery_map_sorted :
    _GROCERY_LOC_MAP.Pairwise (fun p q => PyDateTime.le p.1.end_ q.1.start) := by
  decide

/-- First-match lookup over a list of chronologically sorted, non-overlapping
ranges finds a value exactly when some listed range contains the date. -/
theorem find_range_some_iff (dt : PyDateTime) (s : String) :
    ∀ l : List (MonthRange × String),
      l.Pairwise (fun p q => PyDateTime.le p.1.end_ q.1.start) →
      ((l.find? (fun p => decide (p.1.contains dt))).map Prod.snd = some s
        ↔ ∃ r, (r, s) ∈ l ∧ r.contains dt) := by
  intro l
  induction l with
  | nil => simp
  | cons p t ih =>
    intro hp
    have hhead := (List.pairwise_cons.mp hp).1
    have htail := (List.pairwise_cons.mp hp).2
    rw [List.find?_cons]
    by_cases hc : p.1.contains dt
    · rw [decide_eq_true hc]
      simp only [Option.map_some']
      constructor
      · intro h
        refine ⟨p.1, ?_, hc⟩
        have : p.2 = s := by simpa using h
        rw [← this]
        exact List.mem_cons_self p t
      · rintro ⟨r, hmem, hcont⟩
        rcases List.mem_cons.mp hmem with h1 | h1
        · have : p.2 = s := congrArg Prod.snd h1.symm
          simpa using this
        · exfalso
          have h2 : PyDateTime.le p.1.end_ r.start := hhead (r, s) h1
          have h3 : dt.lt p.1.end_ := hc.2
          have h4 : r.start.le dt := hcont.1
          exact absurd (lt_of_lt_of_le (lt_of_lt_of_le h3 h2) h4) (lt_irrefl _)
    · rw [decide_eq_false hc]
      rw [ih htail]
      constructor
      · rintro ⟨r, hmem, hcont⟩
        exact ⟨r, List.mem_cons_of_mem p hmem, hcont⟩
      · rintro ⟨r, hmem, hcont⟩
        rcases List.mem_cons.mp hmem with h1 | h1
        · exact absurd (congrArg Prod.fst h1 ▸ hcont) hc
        · exact ⟨r, h1, hcont⟩

/-- C7: the grocery-location lookup returns the location of a configured range
exactly when the period date satisfies half-open containment
(start inclusive, end exclusive), and returns `none` -- so the grocery figure is
omitted rather than an error -- when no configured range contains the date. -/
theorem get_grocery_a1_halfopen_lookup (dt : PyDateTime) (s : String) :
    (get_grocery_a1 dt = some s
      ↔ ∃ r, (r, s) ∈ _GROCERY_LOC_MAP ∧ r.start.le dt ∧ dt.lt r.end_)
    ∧ (get_grocery_a1 dt = none
      ↔ ∀ p ∈ _GROCERY_LOC_MAP, ¬(p.1.start.le dt ∧ dt.lt p.1.end_)) := by
  constructor
  · exact find_range_some_iff dt s _GROCERY_LOC_MAP grocery_map_sorted
  · unfold get_grocery_a1
    rw [Option.map_eq_none']
    rw [List.find?_eq_none]
    constructor
    · intro h p hp
      simpa [MonthRange.contains] using h p hp
    · intro h p hp
      simpa [MonthRange.contains] using h p hp

/-- ASCII `str.lower()`. -/
def toLowerStr (s : String) : String := String.mk (s.data.map lowerChar)

/-- Python dict item assignment on an association list: replace the value at
the first occurrence of the key, or append the binding if the key is absent. -/
def updateAssoc : List (String × Option ℚ) → String → Option ℚ → List (String × Option ℚ)
  | [], k, v => [(k, v)]
  | (k', v') :: xs, k, v =>
    if k' = k then (k', v) :: xs else (k', v') :: updateAssoc xs k v

/-- The expense dict comprehension of `get_sheet_dataframe`: each fetched row
of exactly two cells binds the lowercased label to the parsed amount; rows of
any other length are skipped; duplicate labels overwrite as in a dict. -/
def buildExpenses (rows : List (List String)) : List (String × Option ℚ) :=
  rows.foldl
    (fun acc row =>
      match row with
      | [a, b] => updateAssoc acc (toLowerStr a) (parse_money b)
      | _ => acc)
    []

/-- Sequence a list of optional rationals; `none` as soon as any entry is
missing (Python raises on the first `None` operand). -/
def seqCells : List (Option ℚ) → Option (List ℚ)
  | [] => some []
  | none :: _ => none
  | some x :: xs => (seqCells xs).map (fun l => x :: l)

/-- The Python exceptions `get_sheet_dataframe` can raise. -/
inductive SheetErr where
  | keyError
  | typeError
  | indexError
deriving DecidableEq, Repr

/-- One normalized month record as assembled by `get_sheet_dataframe` (the
row of its single-row dataframe).  The `residents` list stands for the
JSON-serialized first row of the residents range. -/
structure Record where
  sheetId : ℕ
  year : ℕ
  month : ℕ
  residents : List String
  num_residents : ℕ
  expenses : List (String × Option ℚ)
  groceries : Option ℚ
deriving DecidableEq, Repr

/-- The rent-split adjustment `data["rent"] = data["rent"] * data["num_residents"]`,
guarded by `sheet.id in _SPLIT_RENT`.  A missing "rent" key raises `KeyError`;
`None * int` raises `TypeError`. -/
def adjustRent (sheetId : ℕ) (numRes : ℕ) (exps : List (String × Option ℚ)) :
    Except SheetErr (List (String × Option ℚ)) :=
  if sheetId ∈ _SPLIT_RENT then
    match exps.lookup "rent" with
    | none => .error .keyError
    | some none => .error .typeError
    | some (some q) => .ok (updateAssoc exps "rent" (some (q * (numRes : ℚ))))
  else .ok exps

/-- `data["groceries"] = sum(map(parse_money, groceries[0]))`, guarded by
`len(groceries) > 0`; summing a `None` raises `TypeError`. -/
def sumGroceries (g : List (List String)) : Except SheetErr (Option ℚ) :=
  match g with
  | [] => .ok none
  | row :: _ =>
    match seqCells (row.map parse_money) with
    | some vals => .ok (some vals.sum)
    | none => .error .typeError

/-- `budget.sheets.get_sheet_dataframe`, with the sheet's external fetches supplied
as arguments: `expenses` is the grid fetched from `A2:B6`, `residents` the grid
from `B1:E1`, and `groceries` the grid from the grocery range (consulted only
when `get_grocery_a1` yields a range, mirroring the 2-vs-3-result split in the
source).  An unparseable title yields `Skip` (`.ok none`); Python exceptions
are `.error`s. -/
def get_sheet_dataframe (sheetId : ℕ) (title : String) (nowYear : ℕ)
    (expenses residents groceries : List (List String)) :
    Except SheetErr (Option Record) :=
  match parse_month_datetime title nowYear with
  | none => .ok none
  | some dt =>
    match residents.head? with
    | none => .error .indexError
    | some res0 =>
      match adjustRent sheetId res0.length (buildExpenses expenses) with
      | .error e => .error e
      | .ok exps =>
        match sumGroceries
            (match get_grocery_a1 dt with
             | some _ => groceries
             | none => []) with
        | .error e => .error e
        | .ok gro => .ok (some ⟨sheetId, dt.year, dt.month, res0, res0.length, exps, gro⟩)

/-- C10: for a sheet in the rent-split set, the builder requires the expense
pairs to carry a "rent" key: a missing key raises `KeyError` and an unparseable
amount (`None * int`) raises `TypeError` -- both raised errors, unlike the
silent skip (`.ok none`) used for an unparseable title. -/
theorem get_sheet_dataframe_rent_split_raises (sheetId : ℕ) (title : String) (nowYear : ℕ)
    (expenses residents groceries : List (List String)) :
    (parse_month_datetime title nowYear = none →
      get_sheet_dataframe sheetId title nowYear expenses residents groceries = .ok none)
    ∧ (∀ res0 dt, residents.head? = some res0 → sheetId ∈ _SPLIT_RENT →
        parse_month_datetime title nowYear = some dt →
        (buildExpenses expenses).lookup "rent" = none →
        get_sheet_dataframe sheetId title nowYear expenses residents groceries
          = .error .keyError)
    ∧ (∀ res0 dt, residents.head? = some res0 → sheetId ∈ _SPLIT_RENT →
        parse_month_datetime title nowYear = some dt →
        (buildExpenses expenses).lookup "rent" = some none →
        get_sheet_dataframe sheetId title nowYear expenses residents groceries
          = .error .typeError) := by
  refine ⟨?_, ?_, ?_⟩
  · intro hparse
    unfold get_sheet_dataframe
    rw [hparse]
  · intro res0 dt hres hmem hparse hlook
    unfold get_sheet_dataframe
    simp only [hparse, hres]
    unfold adjustRent
    rw [if_pos hmem, hlook]
  · intro res0 dt hres hmem hparse hlook
    unfold get_sheet_dataframe
    simp only [hparse, hres]
    unfold adjustRent
    rw [if_pos hmem, hlook]

/-- Witness for C10 at concrete inputs: with no "rent" pair the builder raises
`KeyError`, and with rent amount "abc" (unparseable) it raises `TypeError`. -/
theorem get_sheet_dataframe_rent_split_raises_witness :
    get_sheet_dataframe 2064860783 "Apr2021" 2021 [] [["a"]] [] = .error .keyError
    ∧ get_sheet_dataframe 2064860783 "Apr2021" 2021 [["Rent", "abc"]] [["a"]] []
        = .error .typeError := by
  constructor
  · exact (get_sheet_dataframe_rent_split_raises 2064860783 "Apr2021" 2021
      [] [["a"]] []).2.1 ["a"] ⟨2021, 4, 1, 0, 0, 0⟩ rfl (by decide) rfl rfl
  · exact (get_sheet_dataframe_rent_split_raises 2064860783 "Apr2021" 2021
      [["Rent", "abc"]] [["a"]] []).2.2 ["a"] ⟨2021, 4, 1, 0, 0, 0⟩ rfl (by decide) rfl
      (by with_unfolding_all rfl)

/-- One dataframe cell: a numeric value or missing (`NaN`). -/
abbrev Cell := Option ℚ

/-- One dataframe column, top row first. -/
abbrev Column := List Cell

/-- A pandas dataframe, modelled column-wise: column names with their cell
lists (all the same length in well-formed frames).  The string-valued
"residents" metadata column is outside the numeric model; it is excluded from
every numeric operation below exactly as `mean(numeric_only=True)` and the
`EXCLUDE_COLS` list exclude it in the source. -/
structure DataFrame where
  cols : List (String × Column)
deriving DecidableEq, Repr

/-- Column selection `df[c]`; the empty column when `c` is absent. -/
def DataFrame.col (df : DataFrame) (c : String) : Column :=
  (df.cols.lookup c).getD []

/-- Presence of a column label, as the selection `df[[...]]` requires: pandas
raises `KeyError` when a requested label is absent. -/
def hasCol (df : DataFrame) (c : String) : Prop := df.cols.lookup c ≠ none

instance (df : DataFrame) (c : String) : Decidable (hasCol df c) := by
  unfold hasCol; infer_instance

/-- The present (non-missing) values of a column, as pandas' `skipna`
operations see them. -/
def colVals : Column → List ℚ
  | [] => []
  | none :: xs => colVals xs
  | some x :: xs => x :: colVals xs

/-- Column mean, `df.mean()`: the arithmetic mean of the present values;
undefined (`NaN`) when the column has no values. -/
def colMean (col : Column) : Option ℚ :=
  let v := colVals col
  if v.length = 0 then none else some (v.sum / v.length)

/-- Column sample variance with pandas' default `ddof=1`, so `df.std()` is its
square root; undefined (`NaN`) when fewer than two values are present.
Working with the variance avoids the irrational square root: for `s2 >= 0`,
`|x - m| <= 3 * sqrt s2` holds exactly when `(x - m)^2 <= 9 * s2`. -/
def sampleVar (col : Column) : Option ℚ :=
  let v := colVals col
  let m := v.sum / v.length
  if v.length < 2 then none
  else some ((v.map (fun x => (x - m) ^ 2)).sum / ((v.length : ℚ) - 1))

/-- One cell of `df[np.abs(df - df.mean()) <= (3 * df.std())]`: the cell is
kept exactly when it has a value within three standard deviations of the
column mean; a missing cell, or any comparison against an undefined mean or
standard deviation (`NaN`), is `False` in pandas and the cell is dropped. -/
def keepCell (m s2 : Option ℚ) (v : Cell) : Cell :=
  match v, m, s2 with
  | some x, some mu, some var => if (x - mu) ^ 2 ≤ 9 * var then some x else none
  | _, _, _ => none

/-- The outlier mask applied to one column. -/
def filterColOutliers (col : Column) : Column :=
  col.map (keepCell (colMean col) (sampleVar col))

/-- `budget.analysis.remove_outliers`:
`df[np.abs(df - df.mean()) <= (3 * df.std())]`, keeping per-cell the values
within three standard deviations of their own column's mean and turning the
rest into missing cells. -/
def remove_outliers (df : DataFrame) : DataFrame :=
  ⟨df.cols.map (fun p => (p.1, filterColOutliers p.2))⟩

/-- `df.fillna(df.mean(numeric_only=True))` on one column: substitute the
column mean for each missing cell; a column with no values has no mean and is
left unchanged (`fillna` with a `NaN` fill value fills nothing). -/
def fillColumn (col : Column) : Column :=
  match colMean col with
  | some m => col.map (fun v => some (v.getD m))
  | none => col

/-- `df = df.fillna(df.mean(numeric_only=True))` over the whole frame. -/
def fillnaMean (df : DataFrame) : DataFrame :=
  ⟨df.cols.map (fun p => (p.1, fillColumn p.2))⟩

/-- `EXCLUDE_COLS` of `budget.analysis.estimate_rent`. -/
def EXCLUDE_COLS : List String := ["id", "year", "month", "residents", "num_residents"]

/-- Code-point comparison of strings, as Python compares them when pandas
sorts column labels. -/
def stringLe : List Char → List Char → Bool
  | [], _ => true
  | _ :: _, [] => false
  | a :: as, b :: bs =>
    if a.toNat < b.toNat then true
    else if b.toNat < a.toNat then false
    else stringLe as bs

/-- Insertion into a sorted list of strings. -/
def insertSorted (s : String) : List String → List String
  | [] => [s]
  | x :: xs => if stringLe s.data x.data then s :: x :: xs else x :: insertSorted s xs

/-- Insertion sort of strings in code-point order. -/
def sortStrings : List String → List String
  | [] => []
  | x :: xs => insertSorted x (sortStrings xs)

/-- `expenses_cols = df.columns.difference(EXCLUDE_COLS)`: pandas `difference`
returns the de-duplicated column labels not in the exclusion list, sorted. -/
def expensesCols (df : DataFrame) : List String :=
  sortStrings (((df.cols.map Prod.fst).filter (fun c => !EXCLUDE_COLS.contains c)).dedup)

/-- One design-matrix row of the regression `[1, year, month, num_residents]`
(sklearn's `LinearRegression` fits an intercept). -/
def xRow (x : ℚ × ℚ × ℚ) (i : ℕ) : ℚ :=
  if i = 0 then 1 else if i = 1 then x.1 else if i = 2 then x.2.1 else x.2.2

/-- Entry `(i, j)` of the normal matrix `Xᵀ X` of the regression. -/
def normalA (xs : List (ℚ × ℚ × ℚ)) (i j : ℕ) : ℚ :=
  (xs.map (fun x => xRow x i * xRow x j)).sum

/-- Entry `i` of `Xᵀ y`. -/
def normalB (xs : List (ℚ × ℚ × ℚ)) (ys : List ℚ) (i : ℕ) : ℚ :=
  ((xs.zip ys).map (fun p => xRow p.1 i * p.2)).sum

/-- 3x3 determinant of the matrix given as an entry function. -/
def det3f (m : ℕ → ℕ → ℚ) : ℚ :=
  m 0 0 * (m 1 1 * m 2 2 - m 1 2 * m 2 1)
    - m 0 1 * (m 1 0 * m 2 2 - m 1 2 * m 2 0)
    + m 0 2 * (m 1 0 * m 2 1 - m 1 1 * m 2 0)

/-- Minor of a 4x4 matrix: delete row `r` and column `c`. -/
def minor4 (m : ℕ → ℕ → ℚ) (r c : ℕ) : ℕ → ℕ → ℚ := fun i j =>
  m (if i < r then i else i + 1) (if j < c then j else j + 1)

/-- 4x4 determinant by expansion along the first row. -/
def det4f (m : ℕ → ℕ → ℚ) : ℚ :=
  m 0 0 * det3f (minor4 m 0 0) - m 0 1 * det3f (minor4 m 0 1)
    + m 0 2 * det3f (minor4 m 0 2) - m 0 3 * det3f (minor4 m 0 3)

/-- Replace column `c` of a matrix by the vector `b`. -/
def replaceCol (m : ℕ → ℕ → ℚ) (b : ℕ → ℚ) (c : ℕ) : ℕ → ℕ → ℚ := fun i j =>
  if j = c then b i else m i j

/-- `LinearRegression().fit(x, y)` followed by `predict([x0])`: ordinary least
squares with intercept.  For a full-column-rank design the unique solution of
the normal equations `XᵀX β = Xᵀy` is computed exactly by Cramer's rule; a
singular normal matrix (where the float solver would return a minimum-norm
solution) is reported as `none`, a case no theorem below relies on. -/
def fitPredict (xs : List (ℚ × ℚ × ℚ)) (ys : List ℚ) (x0 : ℚ × ℚ × ℚ) : Option ℚ :=
  let A := normalA xs
  let b := normalB xs ys
  let d := det4f A
  if d = 0 then none
  else
    let beta : ℕ → ℚ := fun i => det4f (replaceCol A b i) / d
    some (beta 0 + beta 1 * x0.1 + beta 2 * x0.2.1 + beta 3 * x0.2.2)

/-- The exceptions `estimate_rent` can raise: the failed
`assert dt >= datetime.now()`; the `KeyError` of
`df[["year", "month", "num_residents"]]` when a predictor column is absent;
and the `ValueError` the fit raises on missing (`NaN`) input. -/
inductive EstErr where
  | assertionError
  | keyError
  | valueError
deriving DecidableEq, Repr

/-- The single-row result frame of `estimate_rent`: target year and month plus
one predicted amount per expense category, in `expenses_cols` order. -/
structure Estimate where
  year : ℚ
  month : ℚ
  expenses : List (String × ℚ)
deriving DecidableEq, Repr

/-- Row triples of `df[["year", "month", "num_residents"]]`; `none` if any
needed cell is missing. -/
def seqTriples : List (Cell × (Cell × Cell)) → Option (List (ℚ × ℚ × ℚ))
  | [] => some []
  | (some x, some y, some z) :: r => (seqTriples r).map (fun l => (x, y, z) :: l)
  | _ :: _ => none

/-- The predictor matrix `x = df[["year", "month", "num_residents"]]` taken
from the imputed frame, as row triples. -/
def regressionX (df : DataFrame) : Option (List (ℚ × ℚ × ℚ)) :=
  seqTriples ((fillnaMean df).col "year" |>.zip
    (((fillnaMean df).col "month").zip ((fillnaMean df).col "num_residents")))

/-- The regression target `y = df[expense]` for one expense column, taken from
the imputed frame; `none` when a missing value survives imputation (a column
with no values), which makes the fit raise. -/
def regressionYs (df : DataFrame) (c : String) : Option (List ℚ) :=
  seqCells ((fillnaMean df).col c)

/-- One loop iteration of `estimate_rent`: the selection
`x = df[["year", "month", "num_residents"]]` on the imputed frame raises
`KeyError` when any of the three labels is absent; otherwise fit the column
and predict at `(yr, mo, res)`, raising `ValueError` on missing (`NaN`) input
(a singular normal matrix is also reported as the fit failing, a case no
theorem below relies on). -/
def fitExpense (df : DataFrame) (c : String) (yr mo res : ℚ) : Except EstErr ℚ :=
  if hasCol (fillnaMean df) "year" ∧ hasCol (fillnaMean df) "month"
      ∧ hasCol (fillnaMean df) "num_residents" then
    match regressionX df, regressionYs df c with
    | some xs, some ys =>
      match fitPredict xs ys (yr, mo, res) with
      | some p => .ok p
      | none => .error .valueError
    | _, _ => .error .valueError
  else .error .keyError

/-- The `for expense in expenses_cols` loop: predictions per column, aborted at
the first raising column. -/
def fitAll (df : DataFrame) (yr mo res : ℚ) : List String → Except EstErr (List (String × ℚ))
  | [] => .ok []
  | c :: cs =>
    match fitExpense df c yr mo res with
    | .ok p => (fitAll df yr mo res cs).map (fun l => (c, p) :: l)
    | .error e => .error e

/-- Round half to even at integer precision, numpy's rounding mode. -/
def roundHalfEven (q : ℚ) : ℤ :=
  let f := ⌊q⌋
  let r := q - f
  if r < 1 / 2 then f else if 1 / 2 < r then f + 1 else if f % 2 = 0 then f else f + 1

/-- `.round(2)` on one value. -/
def round2 (q : ℚ) : ℚ := (roundHalfEven (q * 100) : ℚ) / 100

/-- The body of `estimate_rent` after validation: impute, fit each expense
column against `(year, month, num_residents)`, predict at the target
`(y, m, residents)`, and round the result frame to 2 decimal places. -/
def estimateAt (df : DataFrame) (residents : ℚ) (y m : ℕ) : Except EstErr Estimate :=
  match fitAll df (y : ℚ) (m : ℚ) residents (expensesCols df) with
  | .ok l => .ok ⟨round2 (y : ℚ), round2 (m : ℚ), l.map (fun p => (p.1, round2 p.2))⟩
  | .error e => .error e

/-- `budget.analysis.estimate_rent`: with no target datetime, forecast at the
current instant `now`; with an explicit target `dt`, first run
`assert dt >= datetime.now()` (an `AssertionError` when `dt < now`) and only
then touch the dataset. -/
def estimate_rent (df : DataFrame) (residents : ℚ) (dt : Option PyDateTime)
    (now : PyDateTime) : Except EstErr Estimate :=
  match dt with
  | none => estimateAt df residents now.year now.month
  | some d =>
    if PyDateTime.lt d now then .error .assertionError
    else estimateAt df residents d.year d.month

/-- Looking up a key after mapping a function over all column values. -/
theorem lookup_map_col (l : List (String × Column)) (f : Column → Column) (c : String) :
    (l.map (fun p => (p.1, f p.2))).lookup c = (l.lookup c).map f := by
  induction l with
  | nil => simp
  | cons p xs ih =>
    obtain ⟨k, v⟩ := p
    simp only [List.map_cons, List.lookup]
    cases hck : c == k
    · exact ih
    · rfl

/-- A column of the outlier-filtered frame is the filtered column of the
original frame. -/
theorem remove_outliers_col (df : DataFrame) (c : String) :
    (remove_outliers df).col c = filterColOutliers (df.col c) := by
  unfold remove_outliers DataFrame.col
  simp only [lookup_map_col]
  cases df.cols.lookup c with
  | none => rfl
  | some col => rfl

/-- A column of the mean-imputed frame is the imputed column of the original
frame. -/
theorem fillnaMean_col (df : DataFrame) (c : String) :
    (fillnaMean df).col c = fillColumn (df.col c) := by
  unfold fillnaMean DataFrame.col
  simp only [lookup_map_col]
  cases df.cols.lookup c with
  | none => rfl
  | some col => rfl

/-- Mean imputation preserves the column labels, so a label is selectable on
the imputed frame exactly when it is selectable on the original one. -/
theorem hasCol_fillnaMean (df : DataFrame) (c : String) :
    hasCol (fillnaMean df) c ↔ hasCol df c := by
  unfold hasCol fillnaMean
  simp only [lookup_map_col]
  cases df.cols.lookup c <;> simp

/-- C3: `remove_outliers` keeps a cell's value exactly when it lies within
three standard deviations of its own column's mean (`(x-m)^2 <= 9*s2` is
`|x-m| <= 3*sqrt s2` squared), turning values strictly outside the band into
missing cells; and the filtering is per-column: the output column depends only
on the same input column, so an exclusion in one column never removes the
row's values in other columns. -/
theorem remove_outliers_three_sigma_per_column (df : DataFrame) (c : String) (i : ℕ)
    (x m s2 : ℚ) (hm : colMean (df.col c) = some m) (hs : sampleVar (df.col c) = some s2)
    (hx : (df.col c)[i]? = some (some x)) :
    ((remove_outliers df).col c)[i]?
      = some (if (x - m) ^ 2 ≤ 9 * s2 then some x else none)
    ∧ ∀ df' : DataFrame, df'.col c = df.col c →
        (remove_outliers df').col c = (remove_outliers df).col c := by
  constructor
  · rw [remove_outliers_col]
    unfold filterColOutliers
    rw [List.getElem?_map, hx]
    rw [hm, hs]
    rfl
  · intro df' h
    rw [remove_outliers_col, remove_outliers_col, h]

/-- Witness for C3 at a concrete column [0, 0, 0, 6]: mean 3/2, sample
variance 9, and (6 - 3/2)^2 = 81/4 <= 81, so the value 6 is retained. -/
theorem remove_outliers_three_sigma_per_column_witness :
    ((remove_outliers (⟨[("power", [some 0, some 0, some 0, some 6])]⟩ : DataFrame)).col
      "power")[3]? = some (some 6) := by
  have h := (remove_outliers_three_sigma_per_column
    ⟨[("power", [some 0, some 0, some 0, some 6])]⟩ "power" 3 6 (3 / 2) 9
    (by with_unfolding_all rfl) (by with_unfolding_all rfl) rfl).1
  rw [if_pos (by norm_num)] at h
  exact h

/-- One loop iteration can raise only `KeyError` or `ValueError`, never
`AssertionError`. -/
theorem fitExpense_no_assertion (df : DataFrame) (c : String) (yr mo res : ℚ) :
    fitExpense df c yr mo res ≠ .error .assertionError := by
  unfold fitExpense
  split
  · split
    · split <;> simp
    · simp
  · simp

/-- The whole fitting loop never raises `AssertionError`. -/
theorem fitAll_no_assertion (df : DataFrame) (yr mo res : ℚ) (cs : List String) :
    fitAll df yr mo res cs ≠ .error .assertionError := by
  induction cs with
  | nil => simp [fitAll]
  | cons c0 cs ih =>
    unfold fitAll
    split
    · rename_i p hfe
      cases hall : fitAll df yr mo res cs with
      | ok l => simp [Except.map]
      | error e =>
        simp only [Except.map]
        intro hcontra
        injection hcontra with he
        exact ih (by rw [hall, he])
    · rename_i e hfe
      intro hcontra
      injection hcontra with he
      exact fitExpense_no_assertion df c0 yr mo res (by rw [hfe, he])

/-- The post-validation body never raises `AssertionError`: its failures are
the fit's `KeyError`/`ValueError`. -/
theorem estimateAt_no_assertion (df : DataFrame) (residents : ℚ) (y m : ℕ) :
    estimateAt df residents y m ≠ .error .assertionError := by
  unfold estimateAt
  split
  · simp
  · rename_i e hall
    intro h
    injection h with he
    exact fitAll_no_assertion df _ _ _ _ (by rw [hall, he])

/-- C1 (amended): with an explicit target, `estimate_rent` raises
`AssertionError` exactly when the target datetime is before the current
instant `now` -- a full-datetime comparison, not a period comparison -- and the
check precedes any computation on the dataset: when it fires, the result does
not depend on the dataframe at all. -/
theorem estimate_rent_assertion_iff_past_instant (df df' : DataFrame) (residents : ℚ)
    (d now : PyDateTime) :
    (estimate_rent df residents (some d) now = .error .assertionError
      ↔ PyDateTime.lt d now)
    ∧ (PyDateTime.lt d now →
        estimate_rent df residents (some d) now
          = estimate_rent df' residents (some d) now) := by
  constructor
  · constructor
    · intro h
      by_contra hn
      rw [show estimate_rent df residents (some d) now
          = estimateAt df residents d.year d.month from by
        simp only [estimate_rent]
        rw [if_neg hn]] at h
      exact estimateAt_no_assertion df residents d.year d.month h
    · intro h
      simp only [estimate_rent]
      rw [if_pos h]
  · intro h
    simp only [estimate_rent]
    rw [if_pos h, if_pos h]

/-- Witness for C1 at a concrete past target: the assertion fires identically
on two different dataframes. -/
theorem estimate_rent_assertion_iff_past_instant_witness :
    estimate_rent ⟨[("rent", [some 1])]⟩ 2 (some ⟨2024, 4, 1, 0, 0, 0⟩)
      ⟨2024, 5, 15, 12, 0, 0⟩
      = estimate_rent ⟨[]⟩ 2 (some ⟨2024, 4, 1, 0, 0, 0⟩) ⟨2024, 5, 15, 12, 0, 0⟩ :=
  (estimate_rent_assertion_iff_past_instant ⟨[("rent", [some 1])]⟩ ⟨[]⟩ 2
    ⟨2024, 4, 1, 0, 0, 0⟩ ⟨2024, 5, 15, 12, 0, 0⟩).2 (by decide)

/-- Counterexample to C1 as stated: a target equal to the current period (the
first of the month at midnight, compared against an instant later in the same
month) still raises `AssertionError`, because the source compares full
datetimes, not periods. -/
theorem estimate_rent_rejects_current_period :
    (⟨2024, 5, 1, 0, 0, 0⟩ : PyDateTime).year = (⟨2024, 5, 15, 12, 0, 0⟩ : PyDateTime).year
    ∧ (⟨2024, 5, 1, 0, 0, 0⟩ : PyDateTime).month
      = (⟨2024, 5, 15, 12, 0, 0⟩ : PyDateTime).month
    ∧ estimate_rent ⟨[("rent", [some 1, some 2])]⟩ 2 (some ⟨2024, 5, 1, 0, 0, 0⟩)
        ⟨2024, 5, 15, 12, 0, 0⟩ = .error .assertionError := by
  refine ⟨rfl, rfl, ?_⟩
  simp only [estimate_rent]
  rw [if_pos (by decide)]

/-- A dataset whose "power" column holds ten zeros and one extreme value 1100:
mean 100, sample variance 110000, and (1100 - 100)^2 = 1000000 > 990000 =
9 * 110000, so 1100 lies strictly outside the three-sigma band. -/
def outlierDf : DataFrame :=
  ⟨[("year", [some 2020, some 2020, some 2020, some 2020, some 2020, some 2020,
      some 2020, some 2020, some 2020, some 2020, some 2021]),
    ("month", [some 1, some 2, some 3, some 4, some 5, some 6, some 7, some 8,
      some 9, some 10, some 11]),
    ("num_residents", [some 2, some 2, some 2, some 2, some 2, some 2, some 2,
      some 2, some 2, some 2, some 2]),
    ("power", [some 0, some 0, some 0, some 0, some 0, some 0, some 0, some 0,
      some 0, some 0, some 1100])]⟩

/-- C2 fails on the code: `estimate_rent` never calls `remove_outliers`, so a
value lying more than three standard deviations from its column's mean is NOT
excluded from the regression input.  On `outlierDf` the value 1100 is such an
outlier -- `remove_outliers` itself would drop it -- yet `regressionYs`, the
exact `y` vector `estimate_rent` hands to the fit for the "power" column,
still contains it. -/
theorem estimate_rent_outlier_reaches_regression :
    colMean (outlierDf.col "power") = some 100
    ∧ sampleVar (outlierDf.col "power") = some 110000
    ∧ ((1100 : ℚ) - 100) ^ 2 > 9 * 110000
    ∧ regressionYs outlierDf "power" = some [0, 0, 0, 0, 0, 0, 0, 0, 0, 0, 1100]
    ∧ (remove_outliers outlierDf).col "power"
      = [some 0, some 0, some 0, some 0, some 0, some 0, some 0, some 0,
         some 0, some 0, none] := by
  refine ⟨?_, ?_, by norm_num, ?_, ?_⟩ <;> with_unfolding_all rfl

/-- A column with a value in none of its cells has an undefined (`NaN`) mean. -/
theorem colVals_of_colMean_none (col : Column) (h : colMean col = none) :
    colVals col = [] := by
  unfold colMean at h
  by_cases h0 : (colVals col).length = 0
  · exact List.length_eq_zero.mp h0
  · rw [if_neg h0] at h
    exact absurd h (by simp)

/-- Sequencing a nonempty all-missing column fails. -/
theorem seqCells_none_of_empty_vals (col : Column) (h : colVals col = [])
    (hne : col ≠ []) : seqCells col = none := by
  cases col with
  | nil => exact absurd rfl hne
  | cons v xs =>
    cases v with
    | none => rfl
    | some x => exact absurd h (by simp [colVals])

/-- With the predictor columns selectable, a raising fit iteration raises
`ValueError`, never `KeyError`. -/
theorem fitExpense_error_eq (df : DataFrame) (c : String) (yr mo res : ℚ) (e : EstErr)
    (hcols : hasCol (fillnaMean df) "year" ∧ hasCol (fillnaMean df) "month"
      ∧ hasCol (fillnaMean df) "num_residents")
    (h : fitExpense df c yr mo res = .error e) : e = .valueError := by
  unfold fitExpense at h
  rw [if_pos hcols] at h
  split at h
  · split at h
    · exact absurd h (by simp)
    · injection h with he
      exact he.symm
  · injection h with he
    exact he.symm

/-- If the predictor columns are selectable and some listed column's fit
raises `ValueError`, the whole loop raises `ValueError`. -/
theorem fitAll_valueError_of_mem (df : DataFrame) (yr mo res : ℚ) (cs : List String)
    (c : String) (hc : c ∈ cs)
    (hcols : hasCol (fillnaMean df) "year" ∧ hasCol (fillnaMean df) "month"
      ∧ hasCol (fillnaMean df) "num_residents")
    (hf : fitExpense df c yr mo res = .error .valueError) :
    fitAll df yr mo res cs = .error .valueError := by
  induction cs with
  | nil => cases hc
  | cons c0 cs ih =>
    unfold fitAll
    rcases List.mem_cons.mp hc with h | h
    · rw [← h, hf]
    · cases hfe : fitExpense df c0 yr mo res with
      | error e =>
        rw [fitExpense_error_eq df c0 yr mo res e hcols hfe]
      | ok p =>
        rw [ih h]
        rfl

/-- C8 (amended): on a frame carrying the year/month/num_residents predictor
columns (without them the selection `df[[...]]` raises `KeyError` before any
fit), each missing amount in a column that has at least one value is replaced
by that column's arithmetic mean over the records that do have a value; but an
expense column with no values anywhere keeps its missing cells (the mean is
undefined, `fillna` fills nothing) and the subsequent fit raises `ValueError`,
so the forecast request fails instead of omitting the category. -/
theorem estimate_rent_mean_impute_and_empty_column_error (df : DataFrame)
    (c c' : String) (m residents : ℚ) (d now : PyDateTime)
    (hyear : hasCol df "year") (hmonth : hasCol df "month")
    (hnres : hasCol df "num_residents")
    (hm : colMean (df.col c) = some m)
    (hnov : colMean (df.col c') = none) (hne : df.col c' ≠ [])
    (hmem : c' ∈ expensesCols df) (hd : ¬PyDateTime.lt d now) :
    (fillnaMean df).col c = (df.col c).map (fun v => some (v.getD m))
    ∧ estimate_rent df residents (some d) now = .error .valueError := by
  have hcols : hasCol (fillnaMean df) "year" ∧ hasCol (fillnaMean df) "month"
      ∧ hasCol (fillnaMean df) "num_residents" :=
    ⟨(hasCol_fillnaMean df "year").mpr hyear, (hasCol_fillnaMean df "month").mpr hmonth,
      (hasCol_fillnaMean df "num_residents").mpr hnres⟩
  constructor
  · rw [fillnaMean_col]
    unfold fillColumn
    rw [hm]
  · have hys : regressionYs df c' = none := by
      unfold regressionYs
      rw [fillnaMean_col]
      rw [show fillColumn (df.col c') = df.col c' from by unfold fillColumn; rw [hnov]]
      exact seqCells_none_of_empty_vals _ (colVals_of_colMean_none _ hnov) hne
    have hfe : fitExpense df c' (d.year : ℚ) (d.month : ℚ) residents
        = .error .valueError := by
      unfold fitExpense
      rw [if_pos hcols, hys]
      cases regressionX df <;> rfl
    simp only [estimate_rent]
    rw [if_neg hd]
    unfold estimateAt
    rw [fitAll_valueError_of_mem df _ _ _ _ c' hmem hcols hfe]

/-- A dataset whose "water" column is entirely missing while "power" has one
missing cell among values. -/
def partialDf : DataFrame :=
  ⟨[("year", [some 1, some 2]), ("month", [some 1, some 1]),
    ("num_residents", [some 2, some 2]), ("power", [some 10, none]),
    ("water", [none, none])]⟩

/-- Witness for C8 at a concrete input: the "power" gap is filled with the
column mean 10, and the all-missing "water" column makes the forecast fail. -/
theorem estimate_rent_mean_impute_and_empty_column_error_witness :
    (fillnaMean partialDf).col "power" = [some 10, some 10]
    ∧ estimate_rent partialDf 2 (some ⟨2021, 1, 1, 0, 0, 0⟩) ⟨2021, 1, 1, 0, 0, 0⟩
      = .error .valueError := by
  have h := estimate_rent_mean_impute_and_empty_column_error partialDf "power" "water"
    10 2 ⟨2021, 1, 1, 0, 0, 0⟩ ⟨2021, 1, 1, 0, 0, 0⟩
    (by with_unfolding_all decide) (by with_unfolding_all decide)
    (by with_unfolding_all decide)
    (by with_unfolding_all rfl) (by with_unfolding_all rfl)
    (by with_unfolding_all decide) (by with_unfolding_all decide) (by decide)
  exact ⟨h.1.trans (by with_unfolding_all rfl), h.2⟩

/-- A dataset whose only expense column "power" has no values at all. -/
def emptyPowerDf : DataFrame :=
  ⟨[("year", [some 1, some 2]), ("month", [some 1, some 2]),
    ("num_residents", [some 2, some 2]), ("power", [none, none])]⟩

/-- Counterexample to C8 as stated: on a dataset whose "power" column has no
values anywhere, `estimate_rent` raises (`ValueError` from fitting on missing
data) instead of producing a result with the category omitted. -/
theorem estimate_rent_empty_column_fails :
    colVals (emptyPowerDf.col "power") = []
    ∧ estimate_rent emptyPowerDf 2 (some ⟨2021, 1, 1, 0, 0, 0⟩) ⟨2021, 1, 1, 0, 0, 0⟩
      = .error .valueError := by
  constructor <;> with_unfolding_all rfl

/-- C9: the forecast pipeline is a pure function of the dataset, the resident
count, the target and the current instant -- the embedded regression is exact
least squares with no randomness -- so two invocations agree. -/
theorem estimate_rent_deterministic (df : DataFrame) (residents : ℚ)
    (dt : Option PyDateTime) (now : PyDateTime) (r₁ r₂ : Except EstErr Estimate)
    (h₁ : r₁ = estimate_rent df residents dt now)
    (h₂ : r₂ = estimate_rent df residents dt now) : r₁ = r₂ :=
  h₁.trans h₂.symm

/-- A four-row, full-rank dataset: fitting rent on (year, month, residents)
interpolates exactly and predicts 50 at (2, 3, 2). -/
def fullRankDf : DataFrame :=
  ⟨[("year", [some 1, some 1, some 2, some 2]),
    ("month", [some 1, some 2, some 1, some 2]),
    ("num_residents", [some 2, some 3, some 2, some 2]),
    ("rent", [some 10, some 20, some 30, some 40])]⟩

/-- Witness for C9: a full end-to-end evaluation of the forecast on a concrete
dataset, equal across invocations. -/
theorem estimate_rent_deterministic_witness :
    Except.ok (⟨2, 3, [("rent", 50)]⟩ : Estimate)
      = estimate_rent fullRankDf 2 (some ⟨2, 3, 1, 0, 0, 0⟩) ⟨2, 3, 1, 0, 0, 0⟩ := by
  have h : estimate_rent fullRankDf 2 (some ⟨2, 3, 1, 0, 0, 0⟩) ⟨2, 3, 1, 0, 0, 0⟩
      = Except.ok (⟨2, 3, [("rent", 50)]⟩ : Estimate) := by
    with_unfolding_all rfl
  exact estimate_rent_deterministic fullRankDf 2 (some ⟨2, 3, 1, 0, 0, 0⟩)
    ⟨2, 3, 1, 0, 0, 0⟩ _ _ h.symm rfl
